import Mathlib

/-!
Verification of the MetaClasses repository.

A shallow embedding of the two source files:
* `decorators.py` — the generic `Dispatcher` call router;
* `descriptors.py` — the `ValidationError` registry, the `TypeChecker`
  descriptor and the five type-specific validators registered into the
  `validate` dispatcher.

Python machine values are modelled by `PyVal` (floats as exact rationals),
Python exceptions by `Except PyErr`, the process-wide error registry
`ValidationError.all` by an explicit `Registry` value threaded through the
operations, and the per-descriptor value store `self.values` (a dict keyed
by `id(instance)` holding `(weakref, value)` pairs) by an association list
keyed by the instance identity; the weak-reference component is dropped
because no claim observes it, but its one observable consequence — the
stored pair is a two-element tuple and hence always truthy in
`TypeChecker.__get__` — is kept.
-/

deriving instance DecidableEq for Except

/-- Python runtime values that can reach the validators: `None`, booleans,
ints, floats (modelled exactly as rationals), strings, and structured
`datetime.date` / `datetime.datetime` objects (collapsed to a date triple,
which is all the code inspects). -/
inductive PyVal where
  | none
  | bool (b : Bool)
  | int (n : ℤ)
  | float (q : ℚ)
  | str (s : String)
  | date (y m d : ℕ)
deriving DecidableEq

/-- `ValidationError(field_name, error_message)` from src/descriptors.py:
the constructor stores the field name and the message (it does not itself
touch the registry; appending is done by `TypeChecker.__set__`). -/
structure ValidationError where
  field_name : String
  error_message : String
deriving DecidableEq

/-- Python exceptions raised by the embedded code paths. -/
inductive PyErr where
  | keyError (msg : String)
  | valueError (msg : String)
  | typeError (msg : String)
deriving DecidableEq

/-- A Python float used as a numeric bound: a finite value or one of the
infinities `float('-inf')` / `float('inf')` that `TypeChecker.__init__`
uses as defaults for `min_value` / `max_value`. -/
inductive PyFloat where
  | ninf
  | fin (q : ℚ)
  | inf
deriving DecidableEq

/-- Python `<` on bound values. -/
def pfLt : PyFloat → PyFloat → Bool
  | PyFloat.ninf, PyFloat.ninf => false
  | PyFloat.ninf, _ => true
  | PyFloat.fin _, PyFloat.ninf => false
  | PyFloat.fin a, PyFloat.fin b => decide (a < b)
  | PyFloat.fin _, PyFloat.inf => true
  | PyFloat.inf, _ => false

/-- Keys of the `validate` dispatcher in src/descriptors.py: the type
objects `str`, `int`, `float`, `date` and the sentinel tag `'enum'` are
registered; `other s` stands for any unregistered key, `s` being its
textual name as it appears in the default handler's message. -/
inductive TypeKey where
  | str
  | int
  | float
  | date
  | enum
  | other (s : String)
deriving DecidableEq

/-- Whether a validator is registered for the key. -/
def TypeKey.registered : TypeKey → Bool
  | TypeKey.other _ => false
  | _ => true

/-- First-match association lookup: the observable behaviour of Python
`dict.get` on the association lists used to model dicts. -/
def lookupKey {α β : Type} [DecidableEq α] (k : α) : List (α × β) → Option β
  | [] => none
  | (k2, v) :: rest => if k2 = k then some v else lookupKey k rest

/-- Python dict assignment `d[k] = v`: replaces the value in place when the
key is present (keeping its position), otherwise appends the new pair at
the end, matching dict insertion-order semantics. -/
def dictInsert {α β : Type} [DecidableEq α] (k : α) (v : β) : List (α × β) → List (α × β)
  | [] => [(k, v)]
  | (k2, v2) :: rest => if k2 = k then (k2, v) :: rest else (k2, v2) :: dictInsert k v rest

/-- Decimal digits of the fractional part `num/den` (`num < den`), fuel
bounded; every Python float has a terminating decimal expansion, which the
fuel of 64 digits used below more than covers for the values in play. -/
def fracDigits (den : ℕ) : ℕ → ℕ → String
  | _, 0 => ""
  | num, fuel + 1 =>
    if num = 0 then ""
    else toString ((num * 10) / den) ++ fracDigits den ((num * 10) % den) fuel

/-- Textual form of a float, modelling Python `str(value)`: always shows a
decimal point, integral floats printing as `"x.0"`. (CPython prints the
shortest round-tripping decimal; for the exact rationals of this model the
two agree.) -/
def ratRepr (q : ℚ) : String :=
  let sign := if q < 0 then "-" else ""
  let p := q.num.natAbs
  let fr := fracDigits q.den (p % q.den) 64
  sign ++ toString (p / q.den) ++ "." ++ (if fr = "" then "0" else fr)

/-- Python `str(value)` for the modelled values. -/
def pyStr : PyVal → String
  | PyVal.none => "None"
  | PyVal.bool true => "True"
  | PyVal.bool false => "False"
  | PyVal.int n => toString n
  | PyVal.float q => ratRepr q
  | PyVal.str s => s
  | PyVal.date y m d =>
    "datetime.date(" ++ toString y ++ ", " ++ toString m ++ ", " ++ toString d ++ ")"

/-- Python `repr(value)`, used when a value is rendered inside a list. -/
def pyRepr : PyVal → String
  | PyVal.str s => "\x27" ++ s ++ "\x27"
  | v => pyStr v

/-- Python `str` of a list of values, as an f-string renders `{enum_list}`. -/
def pyReprList (l : List PyVal) : String :=
  "[" ++ String.intercalate ", " (l.map pyRepr) ++ "]"

/-- Python `str` of a float bound. -/
def pfStr : PyFloat → String
  | PyFloat.ninf => "-inf"
  | PyFloat.inf => "inf"
  | PyFloat.fin q => ratRepr q

/-- `isinstance(value, Real)`: the numeric value of a `numbers.Real`
(`bool` counts, being an `int` subclass), `none` otherwise. -/
def pyRealVal : PyVal → Option ℚ
  | PyVal.int n => some (n : ℚ)
  | PyVal.float q => some q
  | PyVal.bool b => some (if b then 1 else 0)
  | _ => none

/-- `float(value) == int(value)` for a `Real` value: `int()` truncates, so
the test holds exactly when the value is integral. -/
def isIntegralReal : PyVal → Bool
  | PyVal.int _ => true
  | PyVal.bool _ => true
  | PyVal.float q => decide (q.den = 1)
  | _ => false

/-- Python truthiness of the optional ints `min_length` / `max_length`:
`None` and `0` are falsy. -/
def truthyOptNat : Option ℕ → Bool
  | none => false
  | some n => decide (n ≠ 0)

/-- `validate_string` (src/descriptors.py:200-210): `None` passes; a
non-`str` fails; truthy `min_length` / `max_length` bound the character
count inclusively. -/
def validate_string (value : PyVal) (attr_name : String)
    (min_length max_length : Option ℕ) : Except PyErr (Bool × Option ValidationError) :=
  match value with
  | PyVal.none => Except.ok (true, none)
  | PyVal.str s =>
    if truthyOptNat min_length && decide (s.length < min_length.getD 0) then
      Except.ok (false, some ⟨attr_name,
        "Field " ++ attr_name ++ " must have at least " ++ toString (min_length.getD 0) ++
        " characters. Invalid value: " ++ s⟩)
    else if truthyOptNat max_length && decide (s.length > max_length.getD 0) then
      Except.ok (false, some ⟨attr_name,
        "Field " ++ attr_name ++ " cannot have more than " ++ toString (max_length.getD 0) ++
        " characters. Invalid value: " ++ s⟩)
    else Except.ok (true, none)
  | v => Except.ok (false, some ⟨attr_name,
      "Field " ++ attr_name ++ " is type of str. Invalid value: " ++ pyStr v⟩)

/-- `validate_integer` (src/descriptors.py:212-220): `None` passes; a
non-`Real` or non-integral value fails; the bounds check is the strict
`min_value < value < max_value`, its message nevertheless claiming the
bounds are inclusive. -/
def validate_integer (value : PyVal) (attr_name : String)
    (min_value max_value : PyFloat) : Except PyErr (Bool × Option ValidationError) :=
  match value with
  | PyVal.none => Except.ok (true, none)
  | v =>
    match pyRealVal v with
    | none => Except.ok (false, some ⟨attr_name,
        attr_name ++ " is type of integer. Invalid value: " ++ pyStr v⟩)
    | some q =>
      if !isIntegralReal v then
        Except.ok (false, some ⟨attr_name,
          attr_name ++ " is type of integer. Invalid value: " ++ pyStr v⟩)
      else if !(pfLt min_value (PyFloat.fin q) && pfLt (PyFloat.fin q) max_value) then
        Except.ok (false, some ⟨attr_name,
          attr_name ++ " must be between " ++ pfStr min_value ++ " and " ++ pfStr max_value ++
          ". Bottom and upper bounds inclusive"⟩)
      else Except.ok (true, none)

/-- Python `str.split(".")` on the character list: splits at every dot,
keeping empty groups. -/
def splitOnDot : List Char → List (List Char)
  | [] => [[]]
  | '.' :: rest => [] :: splitOnDot rest
  | c :: rest =>
    match splitOnDot rest with
    | [] => [[c]]
    | g :: gs => (c :: g) :: gs

/-- `validate_float` (src/descriptors.py:222-237): `None` passes; a
non-`Real` fails; strict exclusive bounds check; when `max_length` is not
`None`, the decimal part of `str(value)` may have at most `max_length`
characters (an integral float prints as `"x.0"`, one decimal character). -/
def validate_float (value : PyVal) (attr_name : String)
    (min_value max_value : PyFloat) (max_length : Option ℕ) :
    Except PyErr (Bool × Option ValidationError) :=
  match value with
  | PyVal.none => Except.ok (true, none)
  | v =>
    match pyRealVal v with
    | none => Except.ok (false, some ⟨attr_name,
        attr_name ++ " must be a float. Invalid value: " ++ pyStr v⟩)
    | some q =>
      if !(pfLt min_value (PyFloat.fin q) && pfLt (PyFloat.fin q) max_value) then
        Except.ok (false, some ⟨attr_name,
          attr_name ++ " must be between " ++ pfStr min_value ++ " and " ++ pfStr max_value ++
          ". Bottom and upper bounds inclusive. Invalid value: " ++ pyStr v⟩)
      else
        match max_length with
        | none => Except.ok (true, none)
        | some L =>
          match splitOnDot (pyStr v).data with
          | _ :: p1 :: _ =>
            if p1.length > L then
              Except.ok (false, some ⟨attr_name,
                attr_name ++ " must have at most " ++ toString L ++
                " decimal places. Invalid value: " ++ pyStr v⟩)
            else Except.ok (true, none)
          | _ => Except.ok (true, none)

/-- `validate_enum` (src/descriptors.py:269-278): `None` passes; a missing
allow-list raises `ValueError` (the Python message contains the literal
braces of a non-f-string); otherwise membership in the allow-list is
required. -/
def validate_enum (value : PyVal) (attr_name : String)
    (enum_list : Option (List PyVal)) : Except PyErr (Bool × Option ValidationError) :=
  match value with
  | PyVal.none => Except.ok (true, none)
  | v =>
    match enum_list with
    | none => Except.error (PyErr.valueError
        "Enum list can not be empty. Provide the acceptable values for attribute \x7battr_name\x7d")
    | some lst =>
      if !(lst.contains v) then
        Except.ok (false, some ⟨attr_name,
          "Acceptable values for attribute " ++ attr_name ++ " are " ++ pyReprList lst ++
          ". Invalid value: " ++ pyStr v⟩)
      else Except.ok (true, none)

/-- Format directives supported by the formats the repository uses:
`%Y`, `%m`, `%d` and literal characters. -/
inductive FmtTok where
  | dirY
  | dirm
  | dird
  | lit (c : Char)
deriving DecidableEq

/-- Tokenize a `strptime` format string; `none` on a directive outside the
modelled fragment (CPython would raise `ValueError` for a bad directive,
which `validate_date` catches and treats as a non-match, exactly like the
`none` result is treated below). -/
def tokenizeFmt : List Char → Option (List FmtTok)
  | [] => some []
  | '%' :: 'Y' :: rest => (tokenizeFmt rest).map (fun ts => FmtTok.dirY :: ts)
  | '%' :: 'm' :: rest => (tokenizeFmt rest).map (fun ts => FmtTok.dirm :: ts)
  | '%' :: 'd' :: rest => (tokenizeFmt rest).map (fun ts => FmtTok.dird :: ts)
  | '%' :: _ => none
  | c :: rest => (tokenizeFmt rest).map (fun ts => FmtTok.lit c :: ts)

/-- `%Y` matches exactly four digits (CPython regex `\d\d\d\d`). -/
def yCandidates : List Char → List (ℕ × List Char)
  | c1 :: c2 :: c3 :: c4 :: rest =>
    if c1.isDigit && c2.isDigit && c3.isDigit && c4.isDigit then
      [((c1.toNat - 48) * 1000 + (c2.toNat - 48) * 100 + (c3.toNat - 48) * 10 +
        (c4.toNat - 48), rest)]
    else []
  | _ => []

/-- `%m` alternatives in CPython regex order: `1[0-2]`, `0[1-9]`, `[1-9]`. -/
def mCandidates (cs : List Char) : List (ℕ × List Char) :=
  (match cs with
   | '1' :: c2 :: rest =>
     if '0' ≤ c2 ∧ c2 ≤ '2' then [(10 + (c2.toNat - 48), rest)] else []
   | _ => []) ++
  (match cs with
   | '0' :: c2 :: rest =>
     if '1' ≤ c2 ∧ c2 ≤ '9' then [(c2.toNat - 48, rest)] else []
   | _ => []) ++
  (match cs with
   | c1 :: rest =>
     if '1' ≤ c1 ∧ c1 ≤ '9' then [(c1.toNat - 48, rest)] else []
   | _ => [])

/-- `%d` alternatives in CPython regex order: `3[01]`, `[12]\d`, `0[1-9]`,
`[1-9]`. -/
def dCandidates (cs : List Char) : List (ℕ × List Char) :=
  (match cs with
   | '3' :: c2 :: rest =>
     if c2 = '0' ∨ c2 = '1' then [(30 + (c2.toNat - 48), rest)] else []
   | _ => []) ++
  (match cs with
   | c1 :: c2 :: rest =>
     if ('1' ≤ c1 ∧ c1 ≤ '2') ∧ c2.isDigit then
       [((c1.toNat - 48) * 10 + (c2.toNat - 48), rest)]
     else []
   | _ => []) ++
  (match cs with
   | '0' :: c2 :: rest =>
     if '1' ≤ c2 ∧ c2 ≤ '9' then [(c2.toNat - 48, rest)] else []
   | _ => []) ++
  (match cs with
   | c1 :: rest =>
     if '1' ≤ c1 ∧ c1 ≤ '9' then [(c1.toNat - 48, rest)] else []
   | _ => [])

/-- Backtracking match of a token list against the input, alternatives
tried in regex order, requiring the whole input be consumed (CPython checks
`found.end() == len(data_string)`); missing directives take the `strptime`
defaults year 1900, month 1, day 1. Fuel is structural, one token consumed
per step. -/
def matchToksF : ℕ → List FmtTok → List Char → Option ℕ → Option ℕ → Option ℕ →
    Option (ℕ × ℕ × ℕ)
  | _, [], cs, y, m, d =>
    if cs = [] then some (y.getD 1900, m.getD 1, d.getD 1) else none
  | 0, _ :: _, _, _, _, _ => none
  | fuel + 1, t :: ts, cs, y, m, d =>
    match t with
    | FmtTok.lit c =>
      match cs with
      | c2 :: cs2 => if c2 = c then matchToksF fuel ts cs2 y m d else none
      | [] => none
    | FmtTok.dirY => (yCandidates cs).findSome? (fun p => matchToksF fuel ts p.2 (some p.1) m d)
    | FmtTok.dirm => (mCandidates cs).findSome? (fun p => matchToksF fuel ts p.2 y (some p.1) d)
    | FmtTok.dird => (dCandidates cs).findSome? (fun p => matchToksF fuel ts p.2 y m (some p.1))

/-- Gregorian leap year, as `datetime` uses. -/
def isLeap (y : ℕ) : Bool := (y % 4 = 0 ∧ y % 100 ≠ 0) ∨ y % 400 = 0

/-- Days in a month, as `datetime` uses. -/
def daysInMonth (y m : ℕ) : ℕ :=
  match m with
  | 2 => if isLeap y then 29 else 28
  | 4 => 30
  | 6 => 30
  | 9 => 30
  | 11 => 30
  | _ => 31

/-- Whether `datetime(y, m, d)` construction succeeds (`MINYEAR = 1`,
`MAXYEAR = 9999`); on failure `strptime` raises `ValueError`, which
`validate_date` catches as a non-match. -/
def validDate (y m d : ℕ) : Bool :=
  (1 ≤ y ∧ y ≤ 9999) ∧ (1 ≤ m ∧ m ≤ 12) ∧ 1 ≤ d ∧ d ≤ daysInMonth y m

/-- Whether `datetime.strptime(value, fmt)` succeeds, for the modelled
directive fragment. -/
def strptimeOk (value fmt : String) : Bool :=
  match tokenizeFmt fmt.data with
  | none => false
  | some toks =>
    match matchToksF (toks.length + 1) toks value.data none none none with
    | some (y, m, d) => validDate y m d
    | none => false

/-- `validate_date` (src/descriptors.py:239-267): `None` or an
already-structured `date` / `datetime` passes; a string is tried against
the configured formats — defaulting to `['%Y%m%d', '%Y-%m-%d']` when the
argument is `None` — first match wins; no match fails. A non-string,
non-date value makes `strptime` raise `TypeError`, which the
`except ValueError` clause does not catch, so it propagates (unless the
format list is empty, in which case the loop body never runs). -/
def validate_date (value : PyVal) (attr_name : String)
    (acceptable_formats : Option (List String)) :
    Except PyErr (Bool × Option ValidationError) :=
  match value with
  | PyVal.none => Except.ok (true, none)
  | PyVal.date _ _ _ => Except.ok (true, none)
  | PyVal.str s =>
    let fs := acceptable_formats.getD ["%Y%m%d", "%Y-%m-%d"]
    if fs.any (fun f => strptimeOk s f) then Except.ok (true, none)
    else Except.ok (false, some ⟨attr_name,
      attr_name ++ " must match one of the formats: " ++ String.intercalate ", " fs ++
      ". Invalid value: " ++ s⟩)
  | v =>
    match acceptable_formats.getD ["%Y%m%d", "%Y-%m-%d"] with
    | [] => Except.ok (false, some ⟨attr_name,
        attr_name ++ " must match one of the formats: . Invalid value: " ++ pyStr v⟩)
    | _ :: _ => Except.error (PyErr.typeError
        "strptime() argument 1 must be str, not " )

/-- Message of the default `validate` handler `{type_}` rendered as the
textual name of the unregistered key. -/
def keyErrorMsg (s : String) : String :=
  "No validation function registered for type " ++ s ++
  ". Please register one to handle this type."

/-- The `validate` dispatcher of src/descriptors.py:178-278: the default
handler raises `KeyError`; the five registered handlers are dispatched on
the declared kind. (The generic dispatch mechanics of `decorators.py` are
modelled separately below; this definition is the composed result of
registering the five validators into it.) Argument order follows the call
in `TypeChecker.__set__`. -/
def validate (type_ : TypeKey) (value : PyVal) (attr_name : String)
    (min_length max_length : Option ℕ) (min_value max_value : PyFloat)
    (acceptable_formats : Option (List String)) (enum_list : Option (List PyVal)) :
    Except PyErr (Bool × Option ValidationError) :=
  match type_ with
  | TypeKey.str => validate_string value attr_name min_length max_length
  | TypeKey.int => validate_integer value attr_name min_value max_value
  | TypeKey.float => validate_float value attr_name min_value max_value max_length
  | TypeKey.date => validate_date value attr_name acceptable_formats
  | TypeKey.enum => validate_enum value attr_name enum_list
  | TypeKey.other s => Except.error (PyErr.keyError (keyErrorMsg s))

/-- The process-wide registry `ValidationError.all`: a `defaultdict(list)`
mapping a field name to the ordered list of its recorded errors, modelled
as an association list in key insertion order. -/
abbrev Registry := List (String × List ValidationError)

/-- `ValidationError.all[field].append(e)`: appends to the field's list,
creating the key at the end on first use (defaultdict semantics). -/
def appendError : Registry → String → ValidationError → Registry
  | [], f, e => [(f, [e])]
  | (f2, es) :: rest, f, e =>
    if f2 = f then (f2, es ++ [e]) :: rest else (f2, es) :: appendError rest f e

/-- `ValidationError.get_errors()`: a read-only proxy over the registry
mapping; observationally the mapping itself. -/
def ValidationError.get_errors (reg : Registry) : Registry := reg

/-- `ValidationError.clear_errors()`: `cls.all.clear()`. -/
def ValidationError.clear_errors (_ : Registry) : Registry := []

/-- What the default `json.JSONEncoder` can make of one registry list
entry: it serialises dicts, lists, strings, numbers, booleans and `None`,
and raises `TypeError` for anything else; a `ValidationError` instance (an
`Exception` subclass) is not serialisable, so the encoding never
succeeds. -/
def encodeValidationError (_ : ValidationError) : Option String := none

/-- `ValidationError.to_json()` (src/descriptors.py:53-61):
`json.dumps(cls.get_errors().copy(), indent=4)` — serialises the mapping,
raising `TypeError` as soon as a non-serialisable value is reached. -/
def ValidationError.to_json (reg : Registry) : Except PyErr String :=
  match reg.mapM (fun p => (p.2.mapM encodeValidationError).map (fun ss => (p.1, ss))) with
  | none => Except.error (PyErr.typeError
      "Object of type ValidationError is not JSON serializable")
  | some entries =>
    match entries with
    | [] => Except.ok "\x7b\x7d"
    | _ =>
      Except.ok ("\x7b\n" ++
        String.intercalate ",\n"
          (entries.map (fun p =>
            "    \"" ++ p.1 ++ "\": [" ++ String.intercalate ", " p.2 ++ "]")) ++
        "\n\x7d")

/-- The `TypeChecker` descriptor state: the constructor-configured
constraints, the one-shot `log_missing_mandatory_values` flag, the bound
attribute name (set by `__set_name__`), and the per-instance value store
`self.values` keyed by `id(instance)`. -/
structure TypeChecker where
  type : TypeKey
  min_length : Option ℕ
  max_length : Option ℕ
  min_value : PyFloat
  max_value : PyFloat
  required : Bool
  log_missing_mandatory_values : Bool
  acceptable_date_formats : Option (List String)
  enum_list : Option (List PyVal)
  values : List (ℕ × PyVal)
  attr_name : String
deriving DecidableEq

/-- `TypeChecker.__init__` (src/descriptors.py:80-106). Note line 104 of
the source: `self.acceptable_date_formats = None` — the constructor
argument `acceptable_date_formats` is received but never stored, the
attribute being unconditionally `None`. -/
def TypeChecker.init (type_ : TypeKey) (min_length max_length : Option ℕ)
    (min_value max_value : PyFloat) (required : Bool)
    (acceptable_date_formats : Option (List String))
    (enum_list : Option (List PyVal)) : TypeChecker :=
  { type := type_
    min_length := min_length
    max_length := max_length
    min_value := min_value
    max_value := max_value
    required := required
    log_missing_mandatory_values := true
    acceptable_date_formats := none
    enum_list := enum_list
    values := []
    attr_name := "" }

/-- `TypeChecker.__set_name__`: binds the attribute name. -/
def TypeChecker.set_name (tc : TypeChecker) (attr_name : String) : TypeChecker :=
  { tc with attr_name := attr_name }

/-- `TypeChecker.__get__` through an instance (src/descriptors.py:113-127):
`tuple_value = self.values.get(id(instance), None);
return tuple_value[1] if tuple_value else None`. A stored entry is a
two-element tuple, always truthy, so the guard is exactly presence in the
store — both an absent entry and a stored `None` read back as `None`. -/
def TypeChecker.get (tc : TypeChecker) (inst : ℕ) : PyVal :=
  (lookupKey inst tc.values).getD PyVal.none

/-- The missing-mandatory-value error of `TypeChecker.__set__` case 1. -/
def missingError (attr_name : String) : ValidationError :=
  ⟨attr_name, "Field " ++ attr_name ++ " is mandatory. Ensure there are no missing values"⟩

/-- `TypeChecker.__set__` (src/descriptors.py:129-165), acting on the
descriptor state and the global registry. Case 1: a `None` value on a
required field logs the missing-value error only when the one-shot flag is
still set, then stores. Case 2: dispatch to `validate`; an exception there
propagates before the registry or the store is touched. Case 3: a failed
validation appends the returned error; the value is stored
unconditionally. (The `none` arm under `err` is unreachable: no registered
validator returns `(False, ...)` without an error object.) -/
def TypeChecker.set (tc : TypeChecker) (reg : Registry) (inst : ℕ) (value : PyVal) :
    Except PyErr (TypeChecker × Registry) :=
  if value = PyVal.none ∧ tc.required = true then
    if tc.log_missing_mandatory_values = true then
      Except.ok ({ tc with log_missing_mandatory_values := false,
                           values := dictInsert inst value tc.values },
        appendError reg tc.attr_name (missingError tc.attr_name))
    else
      Except.ok ({ tc with values := dictInsert inst value tc.values }, reg)
  else
    match validate tc.type value tc.attr_name tc.min_length tc.max_length
        tc.min_value tc.max_value tc.acceptable_date_formats tc.enum_list with
    | Except.error e => Except.error e
    | Except.ok (is_ok, err) =>
      Except.ok ({ tc with values := dictInsert inst value tc.values },
        if is_ok then reg
        else
          match err with
          | some e => appendError reg tc.attr_name e
          | none => reg)

/-- Handlers managed by a `Dispatcher` (decorators.py): a function of the
full positional argument list. The first argument doubles as the dispatch
key, as in `Dispatcher.__call__`. -/
def Handler (α β : Type) : Type := List α → β

/-- A `Dispatcher` object (decorators.py:9-81): the default function and a
reference to its mutable `registry` dict, which lives in `PyHeap`.
`MappingProxyType` views alias the same dict, so the dict itself is kept
behind an indirection. -/
structure Dispatcher (α β : Type) where
  default_function : Handler α β
  registryRef : ℕ

/-- The store of mutable registry dicts, keyed by object identity. -/
structure PyHeap (α β : Type) where
  dicts : List (ℕ × List (α × Handler α β))

/-- Dereference a registry dict. -/
def PyHeap.readReg {α β : Type} (H : PyHeap α β) (r : ℕ) : List (α × Handler α β) :=
  (lookupKey r H.dicts).getD []

/-- `Dispatcher.register(key)` applied to a handler (decorators.py:47-60):
`self.registry[key] = func` — a dict assignment on the dispatcher's
registry, overwriting any prior registration for the key. -/
def Dispatcher.register {α β : Type} [DecidableEq α] (H : PyHeap α β)
    (d : Dispatcher α β) (k : α) (f : Handler α β) : PyHeap α β :=
  ⟨dictInsert d.registryRef (dictInsert k f (H.readReg d.registryRef)) H.dicts⟩

/-- `Dispatcher.__call__` (decorators.py:30-45): no positional argument is
a usage error (`ValueError`); otherwise the first argument is looked up in
the registry, the default function covering a miss, and the chosen
function is invoked on the full argument list. -/
def Dispatcher.call {α β : Type} [DecidableEq α] (H : PyHeap α β)
    (d : Dispatcher α β) (args : List α) : Except PyErr β :=
  match args with
  | [] => Except.error (PyErr.valueError
      "At least one positional argument is required for dispatching.")
  | k :: _ =>
    Except.ok (((lookupKey k (H.readReg d.registryRef)).getD d.default_function) args)

/-- `Dispatcher.get_function(key)` (decorators.py:71-81). -/
def Dispatcher.get_function {α β : Type} [DecidableEq α] (H : PyHeap α β)
    (d : Dispatcher α β) (k : α) : Handler α β :=
  (lookupKey k (H.readReg d.registryRef)).getD d.default_function

/-- A `MappingProxyType` view: it wraps — without copying — the dict it
was created over, so it holds just that dict's identity. -/
structure MappingProxyPy where
  ref : ℕ

/-- `Dispatcher.get_registry()` (decorators.py:62-69):
`MappingProxyType(self.registry)` — a read-only view over the registry
dict itself. -/
def Dispatcher.get_registry {α β : Type} (d : Dispatcher α β) : MappingProxyPy :=
  ⟨d.registryRef⟩

/-- Reading a key through a `MappingProxyType` view in the current heap:
the proxy forwards to the wrapped dict. -/
def MappingProxyPy.getitem {α β : Type} [DecidableEq α] (v : MappingProxyPy)
    (H : PyHeap α β) (k : α) : Option (Handler α β) :=
  lookupKey k (H.readReg v.ref)

/-- Assigning through a `MappingProxyType` view: always raises
`TypeError`, the view rejects mutation. -/
def MappingProxyPy.setitem {α β : Type} (_ : MappingProxyPy)
    (_ : PyHeap α β) (_ : α) (_ : Handler α β) : Except PyErr (PyHeap α β) :=
  Except.error (PyErr.typeError "mappingproxy object does not support item assignment")

/-- The process-wide mutable state the descriptor machinery touches: the
shared registry `ValidationError.all` and the `TypeChecker` objects living
on owner classes. `ValidationError.clear_errors` runs `cls.all.clear()`
and reads or writes nothing else. -/
structure ProgramState where
  registry : Registry
  checkers : List TypeChecker

/-- `ValidationError.clear_errors()` as it acts on the whole program
state: only the shared registry is emptied. -/
def clearErrorsState (w : ProgramState) : ProgramState :=
  ⟨ValidationError.clear_errors w.registry, w.checkers⟩

/-- Looking a key up right after inserting it finds the inserted value. -/
theorem lookupKey_dictInsert {α β : Type} [DecidableEq α] (k : α) (v : β)
    (l : List (α × β)) : lookupKey k (dictInsert k v l) = some v := by
  induction l with
  | nil => simp [dictInsert, lookupKey]
  | cons p rest ih =>
    obtain ⟨k2, v2⟩ := p
    by_cases h : k2 = k
    · simp [dictInsert, lookupKey, h]
    · simp [dictInsert, lookupKey, h, ih]

/-- Every registered validator passes a `None` value through with no
error: each of the five handlers returns `(True, "")` on `None` before any
other check. -/
theorem validate_none_passes (k : TypeKey) (a : String) (ml mxl : Option ℕ)
    (mn mx : PyFloat) (fmts : Option (List String)) (el : Option (List PyVal))
    (h : TypeKey.registered k = true) :
    validate k PyVal.none a ml mxl mn mx fmts el = Except.ok (true, none) := by
  cases k with
  | other s => simp [TypeKey.registered] at h
  | str => rfl
  | int => rfl
  | float => rfl
  | date => rfl
  | enum => rfl

/-- The `first_name` field of the demonstration class:
`TypeChecker(str, min_length=1, max_length=6, required=True)`. -/
def tcFirstName : TypeChecker :=
  TypeChecker.set_name
    (TypeChecker.init TypeKey.str (some 1) (some 6) PyFloat.ninf PyFloat.inf true none none)
    "first_name"

/-- The error recorded for `first_name = "Ioannis"` (7 characters). -/
def errC1 : ValidationError :=
  ⟨"first_name", "Field first_name cannot have more than 6 characters. Invalid value: Ioannis"⟩

/-- C1: in a run with at least one recorded validation error, `to_json()`
does not return a JSON string at all: the registry values are
`ValidationError` objects, which the default JSON encoder rejects, so
`json.dumps` raises `TypeError`. Concretely: one failed write to
`first_name` leaves the registry with one error, and `to_json` on that
registry raises rather than producing a re-parsable dump. -/
theorem C1_to_json_raises :
    (∃ tc2, TypeChecker.set tcFirstName [] 1 (PyVal.str "Ioannis") =
        Except.ok (tc2, [("first_name", [errC1])])) ∧
    ValidationError.to_json [("first_name", [errC1])] =
      Except.error (PyErr.typeError "Object of type ValidationError is not JSON serializable") := by
  exact ⟨⟨{ tcFirstName with values := [(1, PyVal.str "Ioannis")] }, by decide⟩, by decide⟩

/-- A date field declared with an explicit format list:
`TypeChecker(date, acceptable_date_formats=['%d.%m.%Y'])`. -/
def tcDob : TypeChecker :=
  TypeChecker.set_name
    (TypeChecker.init TypeKey.date none none PyFloat.ninf PyFloat.inf false
      (some ["%d.%m.%Y"]) none)
    "dob"

/-- C2: the constructor discards its `acceptable_date_formats` argument
(src/descriptors.py:104 assigns `None` instead of the parameter), so every
write validates against the default formats, not the configured list:
`"27.07.1995"` matches the configured `%d.%m.%Y` yet is logged as invalid,
while `"19950727"` is not in the configured list yet passes. -/
theorem C2_formats_argument_ignored :
    tcDob.acceptable_date_formats = none ∧
    validate_date (PyVal.str "27.07.1995") "dob" (some ["%d.%m.%Y"]) = Except.ok (true, none) ∧
    (∃ tc2 e, TypeChecker.set tcDob [] 1 (PyVal.str "27.07.1995") =
        Except.ok (tc2, [("dob", [e])])) ∧
    (∃ tc2, TypeChecker.set tcDob [] 1 (PyVal.str "19950727") = Except.ok (tc2, [])) := by
  refine ⟨by decide, by decide,
    ⟨{ tcDob with values := [(1, PyVal.str "27.07.1995")] },
      ⟨"dob", "dob must match one of the formats: %Y%m%d, %Y-%m-%d. Invalid value: 27.07.1995"⟩,
      by decide⟩,
    ⟨{ tcDob with values := [(1, PyVal.str "19950727")] }, by decide⟩⟩

/-- An optional text field with no constraints. -/
def tcNickname : TypeChecker :=
  TypeChecker.set_name
    (TypeChecker.init TypeKey.str none none PyFloat.ninf PyFloat.inf false none none)
    "nickname"

/-- C3 counterexample: reading through an instance that never stored a
value returns `None`, and after a validly stored null the read returns the
very same `None` — the "absent" result is not distinct from the
stored-null result, refuting the claimed distinguished marker. -/
theorem C3_counterexample :
    TypeChecker.get tcNickname 1 = PyVal.none ∧
    (∃ tc2, TypeChecker.set tcNickname [] 1 PyVal.none = Except.ok (tc2, []) ∧
      TypeChecker.get tc2 1 = TypeChecker.get tcNickname 1) := by
  exact ⟨by decide, ⟨{ tcNickname with values := [(1, PyVal.none)] }, by decide, by decide⟩⟩

/-- C3 amended: reading through an instance with no stored entry returns
`None`; this is the same value — not a distinguished marker — as the
result of reading after a null value was validly stored (optional field,
registered kind, so the null write succeeds with no error). -/
theorem C3_amended_read_unset (tc : TypeChecker) (reg : Registry) (i : ℕ)
    (hunset : lookupKey i tc.values = none)
    (hreg : TypeKey.registered tc.type = true)
    (hopt : tc.required = false) :
    TypeChecker.get tc i = PyVal.none ∧
    TypeChecker.set tc reg i PyVal.none =
      Except.ok ({ tc with values := dictInsert i PyVal.none tc.values }, reg) ∧
    TypeChecker.get { tc with values := dictInsert i PyVal.none tc.values } i = PyVal.none := by
  refine ⟨?_, ?_, ?_⟩
  · simp [TypeChecker.get, hunset]
  · simp [TypeChecker.set, hopt,
      validate_none_passes tc.type tc.attr_name tc.min_length tc.max_length tc.min_value
        tc.max_value tc.acceptable_date_formats tc.enum_list hreg]
  · simp [TypeChecker.get, lookupKey_dictInsert]

/-- C3 amended, witnessed on the concrete optional field. -/
theorem C3_amended_witness :
    TypeChecker.get tcNickname 3 = PyVal.none ∧
    TypeChecker.set tcNickname [] 3 PyVal.none =
      Except.ok ({ tcNickname with values := dictInsert 3 PyVal.none tcNickname.values }, []) ∧
    TypeChecker.get { tcNickname with values := dictInsert 3 PyVal.none tcNickname.values } 3 =
      PyVal.none :=
  C3_amended_read_unset tcNickname [] 3 rfl rfl rfl

/-- C4: for a required field whose one-shot flag is still set, a null
write appends exactly one missing-value error and clears the flag; any
null write on a declaration whose flag is cleared — whatever the owner
instance — stores the value and leaves the registry untouched; and no
successful write ever restores the flag, so the cap is permanent across
all instances of the declaration. -/
theorem C4_one_shot_missing_log (tc : TypeChecker) (reg : Registry) (i : ℕ)
    (hreq : tc.required = true) (hflag : tc.log_missing_mandatory_values = true) :
    (∃ tc2, TypeChecker.set tc reg i PyVal.none =
        Except.ok (tc2, appendError reg tc.attr_name (missingError tc.attr_name)) ∧
      tc2.log_missing_mandatory_values = false) ∧
    (∀ (tc2 : TypeChecker) (reg2 : Registry) (j : ℕ),
      tc2.required = true → tc2.log_missing_mandatory_values = false →
      TypeChecker.set tc2 reg2 j PyVal.none =
        Except.ok ({ tc2 with values := dictInsert j PyVal.none tc2.values }, reg2)) ∧
    (∀ (tc2 tc3 : TypeChecker) (reg2 reg3 : Registry) (j : ℕ) (v : PyVal),
      tc2.log_missing_mandatory_values = false →
      TypeChecker.set tc2 reg2 j v = Except.ok (tc3, reg3) →
      tc3.log_missing_mandatory_values = false) := by
  refine ⟨⟨{ tc with log_missing_mandatory_values := false,
                     values := dictInsert i PyVal.none tc.values }, ?_, rfl⟩, ?_, ?_⟩
  · simp [TypeChecker.set, hreq, hflag]
  · intro tc2 reg2 j h1 h2
    simp [TypeChecker.set, h1, h2]
  · intro tc2 tc3 reg2 reg3 j v h2 hset
    by_cases hc : v = PyVal.none ∧ tc2.required = true
    · simp only [TypeChecker.set, if_pos hc, h2] at hset
      simp at hset
      obtain ⟨h3, _⟩ := hset
      subst h3
      simp [h2]
    · simp only [TypeChecker.set, if_neg hc] at hset
      rcases hval : validate tc2.type v tc2.attr_name tc2.min_length tc2.max_length
          tc2.min_value tc2.max_value tc2.acceptable_date_formats tc2.enum_list with e | pr
      · rw [hval] at hset
        simp at hset
      · rw [hval] at hset
        obtain ⟨is_ok, err⟩ := pr
        simp at hset
        obtain ⟨h3, _⟩ := hset
        subst h3
        simp [h2]

/-- The `last_name` field of the demonstration class:
`TypeChecker(str, min_length=3, max_length=4, required=True)`. -/
def tcLastName : TypeChecker :=
  TypeChecker.set_name
    (TypeChecker.init TypeKey.str (some 3) (some 4) PyFloat.ninf PyFloat.inf true none none)
    "last_name"

/-- C4 witnessed: the first null write to `last_name` logs the single
missing-value entry; a second null write — on another owner instance,
after the flag is cleared — logs nothing. -/
theorem C4_witness :
    (∃ tc2, TypeChecker.set tcLastName [] 1 PyVal.none =
        Except.ok (tc2, appendError [] tcLastName.attr_name (missingError tcLastName.attr_name)) ∧
      tc2.log_missing_mandatory_values = false) ∧
    TypeChecker.set { tcLastName with log_missing_mandatory_values := false } [] 2 PyVal.none =
      Except.ok ({ tcLastName with log_missing_mandatory_values := false,
                                   values := dictInsert 2 PyVal.none tcLastName.values },
        []) := by
  constructor
  · exact (C4_one_shot_missing_log tcLastName [] 1 rfl rfl).1
  · exact (C4_one_shot_missing_log tcLastName [] 1 rfl rfl).2.1
      { tcLastName with log_missing_mandatory_values := false } [] 2 rfl rfl

/-- C5: for integer and decimal fields with configured finite bounds, the
range check is strict exclusive — a numeric candidate equal to `min_value`
or to `max_value` fails validation, and any candidate strictly between the
bounds passes (integer candidates must be integral; the decimal case is
taken with no decimal-place cap). -/
theorem C5_strict_exclusive_bounds (a : String) (lo hi v : ℚ) :
    (v.den = 1 → (v = lo ∨ v = hi) →
      ∃ e, validate_integer (PyVal.float v) a (PyFloat.fin lo) (PyFloat.fin hi) =
        Except.ok (false, some e)) ∧
    (v.den = 1 → lo < v → v < hi →
      validate_integer (PyVal.float v) a (PyFloat.fin lo) (PyFloat.fin hi) =
        Except.ok (true, none)) ∧
    ((v = lo ∨ v = hi) →
      ∃ e, validate_float (PyVal.float v) a (PyFloat.fin lo) (PyFloat.fin hi) none =
        Except.ok (false, some e)) ∧
    (lo < v → v < hi →
      validate_float (PyVal.float v) a (PyFloat.fin lo) (PyFloat.fin hi) none =
        Except.ok (true, none)) := by
  refine ⟨?_, ?_, ?_, ?_⟩
  · intro hden hv
    have hlt : (decide (lo < v) && decide (v < hi)) = false := by
      rcases hv with h | h <;> subst h <;> simp
    simp [validate_integer, pyRealVal, isIntegralReal, hden, pfLt, hlt]
  · intro hden h1 h2
    simp [validate_integer, pyRealVal, isIntegralReal, hden, pfLt, h1, h2]
  · intro hv
    have hlt : (decide (lo < v) && decide (v < hi)) = false := by
      rcases hv with h | h <;> subst h <;> simp
    simp [validate_float, pyRealVal, pfLt, hlt]
  · intro h1 h2
    simp [validate_float, pyRealVal, pfLt, h1, h2]

/-- C5 witnessed on the bounds `0 < value < 100`: the boundary values fail
for both validators, interior values pass. -/
theorem C5_witness :
    (∃ e, validate_integer (PyVal.float 0) "age" (PyFloat.fin 0) (PyFloat.fin 100) =
      Except.ok (false, some e)) ∧
    validate_integer (PyVal.float 50) "age" (PyFloat.fin 0) (PyFloat.fin 100) =
      Except.ok (true, none) ∧
    (∃ e, validate_float (PyVal.float 100) "salary" (PyFloat.fin 0) (PyFloat.fin 100) none =
      Except.ok (false, some e)) ∧
    validate_float (PyVal.float 50) "salary" (PyFloat.fin 0) (PyFloat.fin 100) none =
      Except.ok (true, none) := by
  refine ⟨(C5_strict_exclusive_bounds "age" 0 100 0).1 (by decide) (Or.inl rfl),
    (C5_strict_exclusive_bounds "age" 0 100 50).2.1 (by decide) (by norm_num) (by norm_num),
    (C5_strict_exclusive_bounds "salary" 0 100 100).2.2.1 (Or.inr rfl),
    (C5_strict_exclusive_bounds "salary" 0 100 50).2.2.2 (by norm_num) (by norm_num)⟩

/-- C6: calling the dispatcher with a first argument that has a
registration invokes that handler on the full argument list and returns
its result; with an unregistered first argument it invokes the default
function on the same arguments. -/
theorem C6_dispatch (α β : Type) [DecidableEq α] (H : PyHeap α β) (d : Dispatcher α β)
    (k : α) (rest : List α) :
    (∀ f : Handler α β, lookupKey k (H.readReg d.registryRef) = some f →
      Dispatcher.call H d (k :: rest) = Except.ok (f (k :: rest))) ∧
    (lookupKey k (H.readReg d.registryRef) = none →
      Dispatcher.call H d (k :: rest) = Except.ok (d.default_function (k :: rest))) := by
  constructor
  · intro f h
    simp [Dispatcher.call, h]
  · intro h
    simp [Dispatcher.call, h]

/-- A registered handler summing its arguments, for the C6 witness. -/
def sumHandler : Handler ℕ ℕ := fun args => args.foldr (fun x y => x + y) 0

/-- A default handler returning a constant, for the C6 witness. -/
def defaultHandler99 : Handler ℕ ℕ := fun _ => 99

/-- A heap with one registry dict holding the single registration `1`. -/
def heapC6 : PyHeap ℕ ℕ := ⟨[(0, [(1, sumHandler)])]⟩

/-- A dispatcher over that registry. -/
def dispC6 : Dispatcher ℕ ℕ := ⟨defaultHandler99, 0⟩

/-- C6 witnessed: key `1` routes to the registered handler, key `2` to the
default. -/
theorem C6_witness :
    Dispatcher.call heapC6 dispC6 [1, 5] = Except.ok (sumHandler [1, 5]) ∧
    Dispatcher.call heapC6 dispC6 [2, 5] = Except.ok (defaultHandler99 [2, 5]) := by
  constructor
  · exact (C6_dispatch ℕ ℕ heapC6 dispC6 1 [5]).1 sumHandler rfl
  · exact (C6_dispatch ℕ ℕ heapC6 dispC6 2 [5]).2 rfl

/-- C7: a field whose declared kind has no registered validator makes any
non-missing write raise the default handler's `KeyError`, which
propagates; the model returns the bare exception — no state is produced,
so nothing is recorded in the registry and nothing stored. -/
theorem C7_unregistered_kind (tc : TypeChecker) (reg : Registry) (i : ℕ) (v : PyVal)
    (s : String) (hkind : tc.type = TypeKey.other s) (hv : v ≠ PyVal.none) :
    TypeChecker.set tc reg i v = Except.error (PyErr.keyError (keyErrorMsg s)) := by
  have hc : ¬(v = PyVal.none ∧ tc.required = true) := fun h => hv h.1
  simp [TypeChecker.set, hc, hkind, validate]

/-- A field declared with the unregistered kind `frozenset`. -/
def tcFrozen : TypeChecker :=
  TypeChecker.set_name
    (TypeChecker.init (TypeKey.other "frozenset") none none PyFloat.ninf PyFloat.inf
      false none none)
    "tags"

/-- C7 witnessed on a concrete unregistered kind. -/
theorem C7_witness :
    TypeChecker.set tcFrozen [] 1 (PyVal.int 1) =
      Except.error (PyErr.keyError (keyErrorMsg "frozenset")) :=
  C7_unregistered_kind tcFrozen [] 1 (PyVal.int 1) "frozenset" rfl (by decide)

/-- C8: when the dispatched validator returns a failure, the write does
not raise — the error is appended to the registry under the field name,
the invalid value is stored for the instance anyway, and a subsequent read
through that instance returns it. -/
theorem C8_failed_write_recorded_and_stored (tc : TypeChecker) (reg : Registry) (i : ℕ)
    (v : PyVal) (err : ValidationError)
    (hnm : ¬(v = PyVal.none ∧ tc.required = true))
    (hval : validate tc.type v tc.attr_name tc.min_length tc.max_length tc.min_value
        tc.max_value tc.acceptable_date_formats tc.enum_list = Except.ok (false, some err)) :
    TypeChecker.set tc reg i v =
      Except.ok ({ tc with values := dictInsert i v tc.values },
        appendError reg tc.attr_name err) ∧
    TypeChecker.get { tc with values := dictInsert i v tc.values } i = v := by
  constructor
  · simp [TypeChecker.set, hnm, hval]
  · simp [TypeChecker.get, lookupKey_dictInsert]

/-- The error recorded for `first_name = 3`. -/
def errC8 : ValidationError :=
  ⟨"first_name", "Field first_name is type of str. Invalid value: 3"⟩

/-- C8 witnessed: writing the integer `3` to the text field records a type
error and the tainted value reads back. -/
theorem C8_witness :
    TypeChecker.set tcFirstName [] 1 (PyVal.int 3) =
      Except.ok ({ tcFirstName with values := dictInsert 1 (PyVal.int 3) tcFirstName.values },
        appendError [] tcFirstName.attr_name errC8) ∧
    TypeChecker.get
      { tcFirstName with values := dictInsert 1 (PyVal.int 3) tcFirstName.values } 1 =
      PyVal.int 3 :=
  C8_failed_write_recorded_and_stored tcFirstName [] 1 (PyVal.int 3) errC8
    (by decide) (by decide)

/-- C9: the registry view is live and read-only — a registration performed
after the view was obtained is visible through that same view, and
assigning through the view raises `TypeError`. -/
theorem C9_live_readonly_view (α β : Type) [DecidableEq α] (H : PyHeap α β)
    (d : Dispatcher α β) (k : α) (f : Handler α β) :
    MappingProxyPy.getitem (Dispatcher.get_registry d) (Dispatcher.register H d k f) k =
      some f ∧
    ∀ (H2 : PyHeap α β) (k2 : α) (f2 : Handler α β),
      MappingProxyPy.setitem (Dispatcher.get_registry d) H2 k2 f2 =
        Except.error (PyErr.typeError
          "mappingproxy object does not support item assignment") := by
  constructor
  · simp [MappingProxyPy.getitem, Dispatcher.get_registry, Dispatcher.register,
      PyHeap.readReg, lookupKey_dictInsert]
  · intro H2 k2 f2
    rfl

/-- C10: `clear_errors()` empties the shared registry and touches nothing
else — every descriptor, its one-shot flag and its value store included,
is unchanged; consequently a required field whose flag was already cleared
never logs a missing value again, so null writes after the clear leave the
registry empty. -/
theorem C10_clear_errors_frame (w : ProgramState) :
    (clearErrorsState w).registry = [] ∧
    (clearErrorsState w).checkers = w.checkers ∧
    ∀ (tc : TypeChecker) (i : ℕ),
      tc.required = true → tc.log_missing_mandatory_values = false →
      TypeChecker.set tc (clearErrorsState w).registry i PyVal.none =
        Except.ok ({ tc with values := dictInsert i PyVal.none tc.values }, []) := by
  refine ⟨rfl, rfl, ?_⟩
  intro tc i h1 h2
  simp [TypeChecker.set, h1, h2, clearErrorsState, ValidationError.clear_errors]

/-- The `age` field of the demonstration class:
`TypeChecker(int, min_value=0, max_value=100, required=True)`. -/
def tcAge : TypeChecker :=
  TypeChecker.set_name
    (TypeChecker.init TypeKey.int none none (PyFloat.fin 0) (PyFloat.fin 100) true none none)
    "age"

/-- C10 witnessed: after clearing a registry that held the `age`
missing-value entry, a null write to the already-logged `age` declaration
leaves the registry empty. -/
theorem C10_witness :
    TypeChecker.set { tcAge with log_missing_mandatory_values := false }
      (clearErrorsState ⟨[("age", [missingError "age"])], [tcAge]⟩).registry 7 PyVal.none =
      Except.ok ({ tcAge with log_missing_mandatory_values := false,
                              values := [(7, PyVal.none)] }, []) :=
  (C10_clear_errors_frame ⟨[("age", [missingError "age"])], [tcAge]⟩).2.2
    { tcAge with log_missing_mandatory_values := false } 7 rfl rfl
